import Mathlib

/-!
Verification of the lighthouse rendezvous/directory service specification
against the repository's code. The repository's source tree contains the
client-side smoke test `src/services/lighthouse/tester.py`; the server core
(registration / lookup / authorization engine) is specified but its code is
not in the tree, so the server operations below are modelled from the spec
and the claims about server behaviour are settled against that model. The
tester script itself is embedded directly from the source.
-/

namespace Lighthouse

/-- Byte strings are modelled as lists of natural numbers. -/
abbrev Bytes := List Nat

/-- Encoding of a text string into bytes: the list of its character codes. -/
def encStr (s : String) : Bytes := s.data.map Char.toNat

/-- Modelled from the spec: the public-key cryptography primitives are out of
scope of the repository (external collaborator). A private key is a natural
number and signing a canonical message prepends the key to the message, so a
signature determines both the signer and the exact message signed. -/
def sign (k : Nat) (msg : Bytes) : Bytes := k :: msg

/-- Modelled from the spec: key parsing is an external primitive. A
well-formed public-key encoding is a singleton byte list holding the key; any
other shape is malformed and fails to parse. The private counterpart of a
public key is the same natural number. -/
def parseKey (b : Bytes) : Option Nat :=
  match b with
  | [k] => some k
  | _ => none

/-- Modelled from the spec: `verify(pubkey_bytes, signature, canonical_message)
-> bool` (section 4.1). Returns false (never throws) on malformed key input;
returns true only if the signature was produced by the private counterpart of
the public key over exactly the canonical message. A total pure function. -/
def verify (pubkey sg msg : Bytes) : Bool :=
  match parseKey pubkey with
  | none => false
  | some k => sg == sign k msg

/-- Modelled from the spec: `derive_id(pubkey_bytes) -> Identity` (section
4.1), a deterministic one-way hash of the public key bytes. -/
def deriveId (pubkey : Bytes) : Nat :=
  pubkey.foldl (fun a b => a * 1000003 + b + 1) 7

/-- Splits a character list at the first colon, returning the parts before
and after it, or none when no colon occurs. -/
def splitColon : List Char → Option (List Char × List Char)
  | [] => none
  | c :: cs =>
    if c = ':' then some ([], cs)
    else
      match splitColon cs with
      | some (h, p) => some (c :: h, p)
      | none => none

/-- Modelled from the spec: an endpoint must parse as a syntactically valid
textual `address:port` before acceptance (section 3): a nonempty host, a
colon, and a nonempty all-digit port. -/
def validEndpoint (s : String) : Bool :=
  match splitColon s.data with
  | some (h, p) => !h.isEmpty && !p.isEmpty && p.all Char.isDigit
  | none => false

/-- Modelled from the spec: a Registration Record (section 3) holds the
public key, the endpoint and the registration timestamp; its identity is the
key of the registry map. -/
structure RegRecord where
  pubkey : Bytes
  endpoint : String
  registeredAt : Nat
deriving DecidableEq

/-- Modelled from the spec: a Lookup Record (section 3): identity looked up,
querying client endpoint, and the lookup timestamp. -/
structure LookupRecord where
  id : Nat
  client : String
  lookedUpAt : Nat
deriving DecidableEq

/-- Modelled from the spec: the server state — the Endpoint Registry (identity
to Registration Record), the accumulated Lookup Records (most recent first),
and the Replay Window tracking per identity the highest committed
timestamp. -/
structure ServerState where
  registry : List (Nat × RegRecord)
  lookups : List LookupRecord
  replay : List (Nat × Nat)
deriving DecidableEq

/-- The empty server state: process start and the post-wipe state. -/
def ServerState.empty : ServerState := ⟨[], [], []⟩

/-- Association-list read for the keyed stores of the model. -/
def getAssoc {α : Type} : List (Nat × α) → Nat → Option α
  | [], _ => none
  | (k', v) :: t, k => if k' = k then some v else getAssoc t k

/-- Association-list write: replaces (never appends next to) any existing
entry for the key. -/
def setAssoc {α : Type} (l : List (Nat × α)) (k : Nat) (v : α) : List (Nat × α) :=
  (k, v) :: l.filter (fun p => p.1 != k)

/-- Modelled from the spec: the Replay Guard `accept` contract (section 4.2):
a timestamp is accepted only if it is strictly greater than the last
committed timestamp for that identity; an identity with no committed
timestamp accepts any. -/
def acceptTs (st : ServerState) (i ts : Nat) : Bool :=
  match getAssoc st.replay i with
  | none => true
  | some last => last < ts

/-- Modelled from the spec: the Replay Guard `commit` (section 4.2), recording
the accepted timestamp for the identity after full authorization. -/
def commitTs (st : ServerState) (i ts : Nat) : ServerState :=
  { st with replay := setAssoc st.replay i ts }

/-- Structured outcome of an operation, following the error taxonomy of
section 7: success, `InvalidInput`, `Unauthorized` (bad signature or replay),
`NotFound`. -/
inductive Outcome (α : Type) where
  | ok (a : α)
  | invalidInput
  | unauthorized
  | notFound
deriving DecidableEq

/-- Modelled from the spec: the canonical message signed by a `register`
request — a deterministic serialization of endpoint, pubkey and timestamp
(section 4.3). -/
def canonRegister (endpoint : String) (pubkey : Bytes) (ts : Nat) : Bytes :=
  encStr endpoint ++ 0 :: pubkey ++ [0, ts]

/-- Modelled from the spec: the canonical message signed by a `listconns`
request, over the id and timestamp (section 4.4). -/
def canonListconns (i ts : Nat) : Bytes := [i, 0, ts]

/-- Modelled from the spec: `register` (section 4.3). Validates the endpoint
syntax, runs the Replay Guard, verifies the signature over the canonical
register message with the identity derived server-side from the pubkey;
on success it replaces (not appends) the registration record for the
identity, commits the timestamp and returns the identity. Any failure leaves
the state unchanged. -/
def register (st : ServerState) (endpoint : String) (pubkey sg : Bytes) (ts : Nat) :
    Outcome Nat × ServerState :=
  if validEndpoint endpoint then
    if acceptTs st (deriveId pubkey) ts then
      if verify pubkey sg (canonRegister endpoint pubkey ts) then
        (Outcome.ok (deriveId pubkey),
          commitTs
            { st with registry := setAssoc st.registry (deriveId pubkey) ⟨pubkey, endpoint, ts⟩ }
            (deriveId pubkey) ts)
      else (Outcome.unauthorized, st)
    else (Outcome.unauthorized, st)
  else (Outcome.invalidInput, st)

/-- Modelled from the spec: `resolve(identity) -> Endpoint | NotFound`
(section 4.3), a pure read of the registry. -/
def resolve (st : ServerState) (i : Nat) : Option String :=
  (getAssoc st.registry i).map (·.endpoint)

/-- Modelled from the spec: `lookup` (section 4.4). Unsigned in the observed
payload; resolves the identity through the registry and, on success, appends
a Lookup Record (most recent first) recording the querying client. Unknown
identity yields `NotFound` and records nothing. -/
def lookup (st : ServerState) (i : Nat) (client : String) (ts : Nat) :
    Outcome String × ServerState :=
  match getAssoc st.registry i with
  | none => (Outcome.notFound, st)
  | some r => (Outcome.ok r.endpoint, { st with lookups := ⟨i, client, ts⟩ :: st.lookups })

/-- Modelled from the spec: `listconns` (section 4.4). Unknown identity yields
`NotFound`; the Replay Guard and then a signature over the canonical
listconns message, checked against the identity's registered key, gate the
read; on success the timestamp is committed and all Lookup Records for the
identity are returned, most recent first. -/
def listconns (st : ServerState) (i : Nat) (sg : Bytes) (ts : Nat) :
    Outcome (List LookupRecord) × ServerState :=
  match getAssoc st.registry i with
  | none => (Outcome.notFound, st)
  | some r =>
    if acceptTs st i ts then
      if verify r.pubkey sg (canonListconns i ts) then
        (Outcome.ok (st.lookups.filter (fun L => L.id == i)), commitTs st i ts)
      else (Outcome.unauthorized, st)
    else (Outcome.unauthorized, st)

/-- Modelled from the spec: `wipe() -> void` (section 4.3) clears all
Registration and Lookup Records; the Replay Window is not persisted across a
wipe (section 3). -/
def wipe (_ : ServerState) : ServerState := ServerState.empty

/- The tester client, embedded from src/services/lighthouse/tester.py. -/

/-- The placeholder signature the tester uses: `sig = 'aa'` (tester.py line 6). -/
def sig : String := "aa"

/-- Shape of the register request body (tester.py lines 8-12). -/
structure EndpointPayload where
  endpoint : String
  pubkey : String
  signature : String
  timestamp : Nat
deriving DecidableEq

/-- Shape of the lookup request body (tester.py lines 19-21). -/
structure LookupPayload where
  id : Nat
  client : String
  timestamp : Nat
deriving DecidableEq

/-- Shape of the listconns request body (tester.py lines 25-29). -/
structure ListPayload where
  id : Nat
  signature : String
  timestamp : Nat
deriving DecidableEq

/-- The register payload the tester builds (tester.py lines 8-12): the fixed
endpoint, the public key read from the key file (a parameter here, as the key
file is outside the tree), the placeholder signature and timestamp 111. -/
def endpoint_payload (pubkeyStr : String) : EndpointPayload :=
  { endpoint := "193.60.93.228:22346"
    pubkey := pubkeyStr
    signature := sig
    timestamp := 111 }

/-- The lookup payload the tester builds (tester.py lines 19-21): the id taken
from the register response, a fixed client endpoint, timestamp 111. -/
def lookup_payload (respId : Nat) : LookupPayload :=
  { id := respId, client := "1.1.1.1:9999", timestamp := 111 }

/-- The listconns payload the tester builds (tester.py lines 25-29): the id
taken from the register response, the same placeholder signature, timestamp
111. -/
def list_payload (respId : Nat) : ListPayload :=
  { id := respId, signature := sig, timestamp := 111 }

/-- One operation issued by the tester script. -/
inductive TestOp where
  | wipeOp
  | registerOp (p : EndpointPayload)
  | lookupOp (p : LookupPayload)
  | listconnsOp (p : ListPayload)

/-- The exact operation sequence of tester.py (lines 13-31): wipe, register,
lookup, listconns, in that order. `pubkeyStr` is the key-file content and
`respId` the id field of the register response. -/
def testerScript (pubkeyStr : String) (respId : Nat) : List TestOp :=
  [TestOp.wipeOp,
   TestOp.registerOp (endpoint_payload pubkeyStr),
   TestOp.lookupOp (lookup_payload respId),
   TestOp.listconnsOp (list_payload respId)]

/-- Applies one tester operation to the modelled server, encoding the textual
pubkey and signature fields into bytes at the wire boundary. -/
def execOp (st : ServerState) : TestOp → ServerState
  | TestOp.wipeOp => wipe st
  | TestOp.registerOp p =>
      (register st p.endpoint (encStr p.pubkey) (encStr p.signature) p.timestamp).2
  | TestOp.lookupOp p => (lookup st p.id p.client p.timestamp).2
  | TestOp.listconnsOp p => (listconns st p.id (encStr p.signature) p.timestamp).2

/-- Runs a list of tester operations from a state. -/
def execOps (st : ServerState) : List TestOp → ServerState
  | [] => st
  | op :: t => execOps (execOp st op) t

/- Concrete example data used by the witnesses. -/

/-- A well-formed signature for registering endpoint "h:1" under key 5 at
timestamp 1. -/
def exSig1 : Bytes := sign 5 (canonRegister "h:1" [5] 1)

/-- The state after that first successful registration. -/
def exSt1 : ServerState := (register ServerState.empty "h:1" [5] exSig1 1).2

/-- A well-formed signature for re-registering endpoint "k:2" under key 5 at
timestamp 2. -/
def exSig2 : Bytes := sign 5 (canonRegister "k:2" [5] 2)

/-- The state after the re-registration. -/
def exSt2 : ServerState := (register exSt1 "k:2" [5] exSig2 2).2

/-- A well-formed owner signature for a listconns request at timestamp 2. -/
def exLcSig : Bytes := sign 5 (canonListconns (deriveId [5]) 2)

/-- The state after a successful listconns against `exSt1`. -/
def exStL : ServerState := (listconns exSt1 (deriveId [5]) exLcSig 2).2

/- Helper lemmas -/

theorem getAssoc_setAssoc_self {α : Type} (l : List (Nat × α)) (k : Nat) (v : α) :
    getAssoc (setAssoc l k v) k = some v := by
  simp [setAssoc, getAssoc]

theorem filter_setAssoc_self {α : Type} (l : List (Nat × α)) (k : Nat) (v : α) :
    (setAssoc l k v).filter (fun p => p.1 == k) = [(k, v)] := by
  simp only [setAssoc, List.filter_cons, beq_self_eq_true, if_pos, List.filter_filter]
  simp [bne]

theorem register_ok_elim {st st' : ServerState} {e : String} {pk sg : Bytes} {ts i : Nat}
    (h : register st e pk sg ts = (Outcome.ok i, st')) :
    validEndpoint e = true ∧ acceptTs st (deriveId pk) ts = true ∧
      verify pk sg (canonRegister e pk ts) = true ∧ i = deriveId pk ∧
      st' = commitTs { st with registry := setAssoc st.registry (deriveId pk) ⟨pk, e, ts⟩ }
              (deriveId pk) ts := by
  unfold register at h
  split_ifs at h with h1 h2 h3
  · simp only [Prod.mk.injEq, Outcome.ok.injEq] at h
    exact ⟨h1, h2, h3, h.1.symm, h.2.symm⟩
  all_goals simp at h

theorem listconns_ok_elim {st st' : ServerState} {i : Nat} {sg : Bytes} {ts : Nat}
    {l : List LookupRecord}
    (h : listconns st i sg ts = (Outcome.ok l, st')) :
    ∃ r, getAssoc st.registry i = some r ∧ acceptTs st i ts = true ∧
      verify r.pubkey sg (canonListconns i ts) = true ∧
      l = st.lookups.filter (fun L => L.id == i) ∧ st' = commitTs st i ts := by
  unfold listconns at h
  cases hg : getAssoc st.registry i with
  | none => rw [hg] at h; simp at h
  | some r =>
    rw [hg] at h
    dsimp only at h
    split_ifs at h with h1 h2
    · simp only [Prod.mk.injEq, Outcome.ok.injEq] at h
      exact ⟨r, rfl, h1, h2, h.1.symm, h.2.symm⟩
    all_goals simp at h

theorem register_snd_lookups (st : ServerState) (e : String) (pk sg : Bytes) (ts : Nat) :
    (register st e pk sg ts).2.lookups = st.lookups := by
  unfold register
  split_ifs <;> rfl

theorem lookup_snd_lookups_len (st : ServerState) (i : Nat) (c : String) (ts : Nat) :
    (lookup st i c ts).2.lookups.length ≤ st.lookups.length + 1 := by
  unfold lookup
  cases getAssoc st.registry i <;> simp

/-- Claim C1: for every identity, key and endpoint, a successful
`register(X, k, e)` followed immediately by a lookup for X resolves to
exactly the endpoint e that was registered (also through the pure read
`resolve`). -/
theorem c1_register_then_lookup (st st' : ServerState) (e : String) (pk sg : Bytes)
    (ts i : Nat) (h : register st e pk sg ts = (Outcome.ok i, st'))
    (client : String) (ts' : Nat) :
    (lookup st' i client ts').1 = Outcome.ok e ∧ resolve st' i = some e := by
  obtain ⟨-, -, -, hi, hst⟩ := register_ok_elim h
  subst hi hst
  simp [lookup, resolve, commitTs, getAssoc_setAssoc_self]

/-- Witness for C1 at a concrete registration. -/
theorem c1_register_then_lookup_witness :
    (lookup (register ServerState.empty "h:1" [5] (sign 5 (canonRegister "h:1" [5] 1)) 1).2
        (deriveId [5]) "1.1.1.1:9999" 2).1 = Outcome.ok "h:1" ∧
      resolve (register ServerState.empty "h:1" [5] (sign 5 (canonRegister "h:1" [5] 1)) 1).2
        (deriveId [5]) = some "h:1" :=
  c1_register_then_lookup ServerState.empty
    (register ServerState.empty "h:1" [5] (sign 5 (canonRegister "h:1" [5] 1)) 1).2
    "h:1" [5] (sign 5 (canonRegister "h:1" [5] 1)) 1 (deriveId [5]) (by rfl) "1.1.1.1:9999" 2

/-- Claim C2: after a valid re-register of an identity with a new endpoint
e2, the identity is unchanged, every subsequent lookup returns e2 (never the
previous endpoint), and the registration record is replaced, not appended:
the registry holds exactly the one new record for the identity. -/
theorem c2_reregister_last_write_wins (st st1 st2 : ServerState) (e1 e2 : String)
    (pk sg1 sg2 : Bytes) (ts1 ts2 i1 i2 : Nat)
    (h1 : register st e1 pk sg1 ts1 = (Outcome.ok i1, st1))
    (h2 : register st1 e2 pk sg2 ts2 = (Outcome.ok i2, st2)) :
    i2 = i1 ∧ (∀ (client : String) (ts' : Nat), (lookup st2 i1 client ts').1 = Outcome.ok e2) ∧
      st2.registry.filter (fun p => p.1 == i1) = [(i1, ⟨pk, e2, ts2⟩)] := by
  obtain ⟨-, -, -, hi1, hst1⟩ := register_ok_elim h1
  obtain ⟨-, -, -, hi2, hst2⟩ := register_ok_elim h2
  subst hi1 hi2 hst1 hst2
  refine ⟨rfl, ?_, ?_⟩
  · intro client ts'
    simp [lookup, commitTs, getAssoc_setAssoc_self]
  · simpa [commitTs] using
      filter_setAssoc_self
        (commitTs { st with
            registry := setAssoc st.registry (deriveId pk) ⟨pk, e1, ts1⟩ }
          (deriveId pk) ts1).registry (deriveId pk) ⟨pk, e2, ts2⟩

/-- Witness for C2 at a concrete pair of registrations of key 5. -/
theorem c2_reregister_witness :
    (lookup exSt2 (deriveId [5]) "1.1.1.1:9999" 3).1 = Outcome.ok "k:2" ∧
      exSt2.registry.filter (fun p => p.1 == deriveId [5]) =
        [(deriveId [5], ⟨[5], "k:2", 2⟩)] :=
  ⟨(c2_reregister_last_write_wins ServerState.empty exSt1 exSt2 "h:1" "k:2" [5] exSig1 exSig2
      1 2 (deriveId [5]) (deriveId [5]) (by rfl) (by rfl)).2.1 "1.1.1.1:9999" 3,
   (c2_reregister_last_write_wins ServerState.empty exSt1 exSt2 "h:1" "k:2" [5] exSig1 exSig2
      1 2 (deriveId [5]) (deriveId [5]) (by rfl) (by rfl)).2.2⟩

/-- Claim C3: a register request whose signature does not verify against the
supplied pubkey and endpoint is rejected with an Unauthorized outcome and
leaves the registry completely unchanged; a follow-up lookup behaves exactly
as it did before the failed attempt. -/
theorem c3_bad_signature_register_rejected (st : ServerState) (e : String) (pk sg : Bytes)
    (ts : Nat) (hv : validEndpoint e = true)
    (hs : verify pk sg (canonRegister e pk ts) = false) :
    register st e pk sg ts = (Outcome.unauthorized, st) ∧
      ∀ (i : Nat) (client : String) (ts' : Nat),
        (lookup (register st e pk sg ts).2 i client ts').1 = (lookup st i client ts').1 := by
  have hreg : register st e pk sg ts = (Outcome.unauthorized, st) := by
    unfold register
    split_ifs <;> simp_all
  exact ⟨hreg, fun i client ts' => by rw [hreg]⟩

/-- Witness for C3: a register with a garbage signature is rejected and the
empty state is unchanged. -/
theorem c3_bad_signature_witness :
    register ServerState.empty "h:1" [5] [9, 9] 1 = (Outcome.unauthorized, ServerState.empty) :=
  (c3_bad_signature_register_rejected ServerState.empty "h:1" [5] [9, 9] 1
    (by decide) (by decide)).1

/-- Claim C4: a register or listconns request that was accepted once is never
accepted a second time when replayed identically (same signature, same
timestamp): the timestamp equals the last committed timestamp for the
identity and is no longer strictly greater, so the replay is rejected with
no state change. -/
theorem c4_replay_rejected :
    (∀ (st st1 : ServerState) (e : String) (pk sg : Bytes) (ts i : Nat),
        register st e pk sg ts = (Outcome.ok i, st1) →
          register st1 e pk sg ts = (Outcome.unauthorized, st1)) ∧
      (∀ (st st1 : ServerState) (i : Nat) (sg : Bytes) (ts : Nat) (l : List LookupRecord),
        listconns st i sg ts = (Outcome.ok l, st1) →
          listconns st1 i sg ts = (Outcome.unauthorized, st1)) := by
  constructor
  · intro st st1 e pk sg ts i h
    obtain ⟨hv, -, -, -, hst⟩ := register_ok_elim h
    subst hst
    simp [register, hv, acceptTs, commitTs, getAssoc_setAssoc_self]
  · intro st st1 i sg ts l h
    obtain ⟨r, hg, -, -, -, hst⟩ := listconns_ok_elim h
    subst hst
    unfold listconns
    have hg' : getAssoc (commitTs st i ts).registry i = some r := hg
    rw [hg']
    simp [acceptTs, commitTs, getAssoc_setAssoc_self]

/-- Witness for C4: a concrete accepted register and a concrete accepted
listconns, each replayed byte-for-byte, are both rejected. -/
theorem c4_replay_witness :
    register exSt1 "h:1" [5] exSig1 1 = (Outcome.unauthorized, exSt1) ∧
      listconns exStL (deriveId [5]) exLcSig 2 = (Outcome.unauthorized, exStL) :=
  ⟨c4_replay_rejected.1 ServerState.empty exSt1 "h:1" [5] exSig1 1 (deriveId [5]) (by rfl),
   c4_replay_rejected.2 exSt1 exStL (deriveId [5]) exLcSig 2 [] (by rfl)⟩

/-- Claim C5: a successful listconns returns exactly the lookup records
accumulated for the identity since the last wipe (the state's whole lookup
history is reset by wipe and only extended by successful lookups, most
recent first: each successful lookup prepends its record); a listconns
signed with a key other than the identity's registered key is rejected as
Unauthorized. -/
theorem c5_listconns_owner_auth (st : ServerState) :
    (∀ (st' : ServerState) (i : Nat) (sg : Bytes) (ts : Nat) (l : List LookupRecord),
        listconns st i sg ts = (Outcome.ok l, st') →
          l = st.lookups.filter (fun L => L.id == i)) ∧
      (∀ (st' : ServerState) (i : Nat) (client e : String) (ts : Nat),
        lookup st i client ts = (Outcome.ok e, st') →
          st'.lookups = ⟨i, client, ts⟩ :: st.lookups) ∧
      (∀ (i ts k' : Nat) (r : RegRecord), getAssoc st.registry i = some r →
        parseKey r.pubkey ≠ some k' →
          (listconns st i (sign k' (canonListconns i ts)) ts).1 = Outcome.unauthorized) := by
  refine ⟨?_, ?_, ?_⟩
  · intro st' i sg ts l h
    obtain ⟨r, -, -, -, hl, -⟩ := listconns_ok_elim h
    exact hl
  · intro st' i client e ts h
    unfold lookup at h
    cases hg : getAssoc st.registry i with
    | none => rw [hg] at h; simp at h
    | some r =>
      rw [hg] at h
      simp only [Prod.mk.injEq, Outcome.ok.injEq] at h
      rw [← h.2]
  · intro i ts k' r hg hk
    unfold listconns
    rw [hg]
    dsimp only
    split_ifs with h1 h2
    · exfalso
      unfold verify at h2
      cases hp : parseKey r.pubkey with
      | none => rw [hp] at h2; simp at h2
      | some k =>
        rw [hp] at h2
        simp only [beq_iff_eq, sign, List.cons.injEq] at h2
        exact hk (by rw [hp, h2.1])
    · rfl
    · rfl

/-- Witness for C5 at the concrete registered state `exSt1`: the successful
listconns returns the (empty) history for the identity, a successful lookup
prepends its record, and a listconns signed with key 6 instead of the
registered key 5 is rejected. -/
theorem c5_listconns_witness :
    ([] : List LookupRecord) = exSt1.lookups.filter (fun L => L.id == deriveId [5]) ∧
      (lookup exSt1 (deriveId [5]) "1.1.1.1:9999" 3).2.lookups =
        (⟨deriveId [5], "1.1.1.1:9999", 3⟩ : LookupRecord) :: exSt1.lookups ∧
      (listconns exSt1 (deriveId [5])
        (sign 6 (canonListconns (deriveId [5]) 2)) 2).1 = Outcome.unauthorized :=
  ⟨(c5_listconns_owner_auth exSt1).1 exStL (deriveId [5]) exLcSig 2 [] (by rfl),
   (c5_listconns_owner_auth exSt1).2.1 (lookup exSt1 (deriveId [5]) "1.1.1.1:9999" 3).2
     (deriveId [5]) "1.1.1.1:9999" "h:1" 3 (by rfl),
   (c5_listconns_owner_auth exSt1).2.2 (deriveId [5]) 2 6 ⟨[5], "h:1", 1⟩
     (by rfl) (by decide)⟩

/-- Claim C6: wipe removes every Registration Record and every Lookup Record:
after a wipe, every lookup returns NotFound, and the listconns history starts
empty (listconns itself reports NotFound for every identity since nothing is
registered). -/
theorem c6_wipe_clears_all (st : ServerState) :
    (wipe st).registry = [] ∧ (wipe st).lookups = [] ∧
      (∀ (i : Nat) (client : String) (ts : Nat),
        (lookup (wipe st) i client ts).1 = Outcome.notFound) ∧
      (∀ (i : Nat) (sg : Bytes) (ts : Nat),
        (listconns (wipe st) i sg ts).1 = Outcome.notFound) := by
  refine ⟨rfl, rfl, ?_, ?_⟩ <;> intros <;> rfl

/-- Claim C7: verify is a total pure Lean function; on a malformed key
encoding it returns false (it never throws: it is total), and it returns true
only if the signature was produced by the private counterpart of the public
key over exactly the canonical message (signing is injective in the
message, so the message is pinned exactly). -/
theorem c7_verify_contract :
    (∀ (pk sg m : Bytes), parseKey pk = none → verify pk sg m = false) ∧
      (∀ (pk sg m : Bytes), verify pk sg m = true →
        ∃ k, parseKey pk = some k ∧ sg = sign k m) ∧
      (∀ (k : Nat) (m m' : Bytes), sign k m = sign k m' → m = m') := by
  refine ⟨?_, ?_, ?_⟩
  · intro pk sg m h
    unfold verify
    rw [h]
  · intro pk sg m h
    unfold verify at h
    cases hp : parseKey pk with
    | none => rw [hp] at h; simp at h
    | some k =>
      rw [hp] at h
      exact ⟨k, rfl, by simpa using h⟩
  · intro k m m' h
    simpa [sign] using h

/-- Witness for C7: verify rejects a malformed (two-byte) key encoding, and a
verified signature pins the signing key and message. -/
theorem c7_verify_witness :
    verify [1, 2] [3] [4] = false ∧
      (∃ k, parseKey [5] = some k ∧ sign 5 [9] = sign k [9]) ∧
      ([4] : Bytes) = [4] :=
  ⟨c7_verify_contract.1 [1, 2] [3] [4] (by rfl),
   c7_verify_contract.2.1 [5] (sign 5 [9]) [9] (by rfl),
   c7_verify_contract.2.2 3 [4] [4] (by rfl)⟩

/-- Claim C8: every request payload the test constructs — register, lookup,
and listconns — carries the same timestamp value 111, so the listconns
request reuses exactly the timestamp of the earlier register request for the
same identity. -/
theorem c8_payload_timestamps (pubkeyStr : String) (respId : Nat) :
    (endpoint_payload pubkeyStr).timestamp = 111 ∧
      (lookup_payload respId).timestamp = 111 ∧
      (list_payload respId).timestamp = 111 ∧
      (list_payload respId).timestamp = (endpoint_payload pubkeyStr).timestamp :=
  ⟨rfl, rfl, rfl, rfl⟩

/-- Claim C9: the test issues exactly the sequence wipe, register, lookup,
listconns in that order; wipe precedes every other call, so the state in
which register executes has an empty registry, and the lookup history when
listconns executes holds at most the single lookup made by the test. -/
theorem c9_tester_sequence (st : ServerState) (pubkeyStr : String) (respId : Nat) :
    testerScript pubkeyStr respId =
      [TestOp.wipeOp, TestOp.registerOp (endpoint_payload pubkeyStr),
       TestOp.lookupOp (lookup_payload respId), TestOp.listconnsOp (list_payload respId)] ∧
      (execOps st (List.take 1 (testerScript pubkeyStr respId))).registry = [] ∧
      (execOps st (List.take 3 (testerScript pubkeyStr respId))).lookups.length ≤ 1 := by
  refine ⟨rfl, rfl, ?_⟩
  have h2 : (execOp (execOp st TestOp.wipeOp)
      (TestOp.registerOp (endpoint_payload pubkeyStr))).lookups = [] :=
    register_snd_lookups ServerState.empty _ _ _ _
  have h3 := lookup_snd_lookups_len
      (execOp (execOp st TestOp.wipeOp) (TestOp.registerOp (endpoint_payload pubkeyStr)))
      respId "1.1.1.1:9999" 111
  rw [h2] at h3
  simpa [testerScript, execOps, execOp, lookup_payload] using h3

/-- Claim C10: the id field sent in both the lookup and listconns payloads is
taken verbatim from the id field of the register response; the tail of the
script holding those two requests is the same whatever public key the client
read, so the client never derives the identity from the key itself. -/
theorem c10_payload_id_verbatim (respId : Nat) (pk1 pk2 : String) :
    (lookup_payload respId).id = respId ∧ (list_payload respId).id = respId ∧
      List.drop 2 (testerScript pk1 respId) = List.drop 2 (testerScript pk2 respId) :=
  ⟨rfl, rfl, rfl⟩

end Lighthouse
